import Mathlib

/-!
Shallow embedding of the pothos-comms math blocks `ConstArithmetic.cpp` and
`Angle.cpp` (the scalar, non-`POTHOS_XSIMD` build branch), together with
theorems settling the specification claims about them.

Modelling conventions:
* A raw input buffer `const T*` is a function `Nat → T`; a kernel that writes
  `out[i]` for `i < num` returns the list of written values, in index order.
* The C++ class templates (`template <typename T>`) become Lean definitions
  polymorphic over the element type with the arithmetic typeclasses the C++
  operators require.
* `std::int32_t` arithmetic at inputs that do not overflow is modelled by `ℤ`
  (C++ signed overflow is undefined, so every defined execution agrees with
  `ℤ`); C++ integer division truncates toward zero, i.e. `Int.tdiv`.
* The IEEE-754 `float` values used by the concrete test vectors
  (1.0, 2.0, -3.0, 3.0, …) and the additions/subtractions on them are exact
  in binary32, so those lanes are modelled by exact `ℚ` arithmetic.
* Imperative methods (`work`, `setConstant`, the constructor) become pure
  state transformers that also return the trace of externally visible calls
  (kernel invocation, `consume`, `produce`, emitted signals), in call order.
* The two registration factories become total functions into `Except`, with
  the generic-object-to-element-type conversion (`Pothos::Object::convert`,
  which lives in the external Pothos framework) abstracted as a parameter.
-/

namespace PothosComms

/-! ### Kernel library (`ConstArithmetic.cpp`, scalar branch)

Each getter in the source returns a lambda looping `for (i = 0; i < num; i++)`
over raw buffers.  The lambda body is transcribed per lane. -/

/-- `getXPlusKFcn`: kernel writing `out[i] = in[i] + k` for every `i < num`. -/
def xPlusKFcn {T : Type} [Add T] (inBuf : Nat → T) (k : T) (num : Nat) : List T :=
  (List.range num).map (fun i => inBuf i + k)

/-- `getXSubKFcn`: kernel writing `out[i] = in[i] - k` for every `i < num`. -/
def xSubKFcn {T : Type} [Sub T] (inBuf : Nat → T) (k : T) (num : Nat) : List T :=
  (List.range num).map (fun i => inBuf i - k)

/-- `getKSubXFcn`: kernel writing `out[i] = k - in[i]` for every `i < num`. -/
def kSubXFcn {T : Type} [Sub T] (inBuf : Nat → T) (k : T) (num : Nat) : List T :=
  (List.range num).map (fun i => k - inBuf i)

/-- `getXMultKFcn`: kernel writing `out[i] = in[i] * k` for every `i < num`. -/
def xMultKFcn {T : Type} [Mul T] (inBuf : Nat → T) (k : T) (num : Nat) : List T :=
  (List.range num).map (fun i => inBuf i * k)

/-- `getXDivKFcn`: kernel writing `out[i] = in[i] / k` for every `i < num`.
No divide-by-zero guard appears in the loop body. -/
def xDivKFcn {T : Type} [Div T] (inBuf : Nat → T) (k : T) (num : Nat) : List T :=
  (List.range num).map (fun i => inBuf i / k)

/-- `getKDivXFcn`: kernel writing `out[i] = k / in[i]` for every `i < num`.
No divide-by-zero guard appears in the loop body. -/
def kDivXFcn {T : Type} [Div T] (inBuf : Nat → T) (k : T) (num : Nat) : List T :=
  (List.range num).map (fun i => k / inBuf i)

/-- C integer division truncates toward zero, which is `Int.tdiv`;
`CInt` is `ℤ` carrying that division, for instantiating the kernels at the
C++ signed-integer element types. -/
def CInt : Type := Int

instance : Add CInt := ⟨fun a b => Int.add a b⟩

instance : Sub CInt := ⟨fun a b => Int.sub a b⟩

instance : Mul CInt := ⟨fun a b => Int.mul a b⟩

instance : Div CInt := ⟨fun a b => Int.tdiv a b⟩

instance : Zero CInt := ⟨(0 : Int)⟩

instance : One CInt := ⟨(1 : Int)⟩

instance : DecidableEq CInt := inferInstanceAs (DecidableEq Int)

instance : IntCast CInt := ⟨fun n => n⟩

instance : NatCast CInt := ⟨fun n => (n : Int)⟩

instance (n : Nat) : OfNat CInt n := ⟨(n : Int)⟩

instance : Neg CInt := ⟨fun a => Int.neg a⟩

/-! ### Transform units

`ConstArithmetic<T>` holds the mutable constant `_constant` and the kernel
pointer `_func` cached at construction (`_position` is declared but never
used or even initialised, so it is omitted).  `Angle<InType, OutType>` holds
only the kernel pointer `_fcn`.  The imperative methods are embedded as pure
transformers returning, besides the new state and the written output buffer,
the ordered trace of calls made to the external collaborators: the kernel
invocation and the port `consume`/`produce` calls, and the signals emitted
through `emitSignal`. -/

/-- One externally visible call made during `work()`: the kernel invocation
(with the `num` argument passed, counted in elements of `T`), or a port
`consume`/`produce` call (counted in logical elements). -/
inductive Effect where
  | kernelCall (num : Nat)
  | consume (elems : Nat)
  | produce (elems : Nat)
deriving DecidableEq, Repr

/-- A signal emitted via `Pothos::Block::emitSignal(name, value)`. -/
structure SignalEvent (T : Type) where
  name : String
  value : T
deriving DecidableEq, Repr

/-- The state of a `ConstArithmetic<T>` block: the stored constant and the
kernel function pointer cached at construction. -/
structure ConstArithmetic (T : Type) where
  _constant : T
  _func : (Nat → T) → T → Nat → List T

/-- `ConstArithmetic::constant()`: the probe getter, a pure read of
`_constant`. -/
def ConstArithmetic.constant {T : Type} (b : ConstArithmetic T) : T :=
  b._constant

/-- `ConstArithmetic::setConstant(constant)`: stores the value, then emits
the "constantChanged" signal carrying it. -/
def ConstArithmetic.setConstant {T : Type} (b : ConstArithmetic T) (c : T) :
    ConstArithmetic T × List (SignalEvent T) :=
  ({ b with _constant := c }, [⟨"constantChanged", c⟩])

/-- The `ConstArithmetic<T>` constructor: member-initialises `_constant(0)`
and `_func(func)`, registers ports, calls and signals with the framework,
then calls `setConstant(constant)` ("Call setter to emit signal").  Returns
the constructed state and the signals emitted during construction. -/
def ConstArithmetic.construct {T : Type} [Zero T]
    (func : (Nat → T) → T → Nat → List T) (constant : T) :
    ConstArithmetic T × List (SignalEvent T) :=
  ConstArithmetic.setConstant { _constant := (0 : T), _func := func } constant

/-- `ConstArithmetic::work()`: reads `elems = workInfo().minElements`; if
zero, returns at once; otherwise invokes `_func(in, _constant, out,
elems*dimension)` and then consumes and produces `elems`.  Returns the state
after the call, the output buffer contents written, and the call trace. -/
def ConstArithmetic.work {T : Type} (b : ConstArithmetic T)
    (elems dimension : Nat) (inBuf : Nat → T) :
    ConstArithmetic T × List T × List Effect :=
  if elems = 0 then (b, [], [])
  else (b, b._func inBuf b._constant (elems * dimension),
        [Effect.kernelCall (elems * dimension),
         Effect.consume elems, Effect.produce elems])

/-- The state of an `Angle<InType, OutType>` block: the kernel pointer
`_fcn` cached at construction. -/
structure Angle (InT OutT : Type) where
  _fcn : (Nat → InT) → Nat → List OutT

/-- `Angle::work()`: reads `elems = workInfo().minElements`; if zero,
returns at once; otherwise invokes `_fcn(in, out, elems*dimension)` and then
consumes and produces `elems`. -/
def Angle.work {InT OutT : Type} (b : Angle InT OutT)
    (elems dimension : Nat) (inBuf : Nat → InT) :
    Angle InT OutT × List OutT × List Effect :=
  if elems = 0 then (b, [], [])
  else (b, b._fcn inBuf (elems * dimension),
        [Effect.kernelCall (elems * dimension),
         Effect.consume elems, Effect.produce elems])

/-- Scalar lanes touched by a kernel call over `num` elements of `T`: each
element of a complex `T` holds two scalar components, otherwise one. -/
def scalarLanes (num : Nat) (isComplex : Bool) : Nat :=
  num * (if isComplex then 2 else 1)

/-! ### Angle kernel (`Angle.cpp`)

`getAngleFcn<InType, OutType>` returns a lambda applying `getAngle` to every
input element.  `getAngle` itself lives in `FxptHelpers.hpp`, which is not
part of the sources here, so it is modelled from the spec below. -/

/-- `getAngleFcn`: kernel writing `out[i] = getAngle(in[i])` for every
`i < num`, with the per-element `getAngle` abstracted as a parameter. -/
def getAngleFcn {InT OutT : Type} (getAngle : InT → OutT)
    (inBuf : Nat → InT) (num : Nat) : List OutT :=
  (List.range num).map (fun i => getAngle (inBuf i))

/-- Modelled from the spec: `getAngle` for floating-point output types is
defined in `FxptHelpers.hpp`, which is missing from `src/`; the spec says
`out[i] = atan2(Im(in[i]), Re(in[i]))` with radians in `(-π, π]`, which is
exactly `Complex.arg`. -/
noncomputable def getAngleFloat (z : ℂ) : ℝ :=
  Complex.arg z

/-- Modelled from the spec: `getAngle` for fixed-point output types is
defined in `FxptHelpers.hpp`, which is missing from `src/`; the spec says
the output is a signed value scaled so that the full signed (16-bit) range
represents `(-π, π)`, i.e. the angle is scaled by `2^15 / π` and rounded. -/
noncomputable def getAngleFixed (z : ℂ) : ℤ :=
  round (Complex.arg z * (2 ^ 15 / Real.pi))

/-! ### Registration factories

`makeConstArithmetic` and `angleFactory` expand, via the
`ifTypeDeclareFactory` macros, into a linear chain of type/operation tests;
the chain is embedded as a `find?` over the ordered table of advertised
entries.  `Pothos::DType` equality after `fromDType(dtype, 1)` compares the
scalar element kind and complexness, ignoring the dimension. -/

/-- The scalar element kinds a `Pothos::DType` can name; `custom` covers
every kind outside the ten the factories test for. -/
inductive BaseKind where
  | int8
  | int16
  | int32
  | int64
  | uint8
  | uint16
  | uint32
  | uint64
  | float32
  | float64
  | custom (name : String)
deriving DecidableEq, Repr

/-- Printable name of a scalar kind, for error messages. -/
def BaseKind.toStringRepr : BaseKind → String
  | .int8 => "int8"
  | .int16 => "int16"
  | .int32 => "int32"
  | .int64 => "int64"
  | .uint8 => "uint8"
  | .uint16 => "uint16"
  | .uint32 => "uint32"
  | .uint64 => "uint64"
  | .float32 => "float32"
  | .float64 => "float64"
  | .custom s => s

/-- A runtime type descriptor (`Pothos::DType`): scalar kind, complexness,
and vector dimension. -/
structure DType where
  base : BaseKind
  isComplex : Bool
  dimension : Nat
deriving DecidableEq, Repr

/-- `Pothos::DType::toString()`, modelling only what the factory errors
carry: a printable rendering of the descriptor. -/
def DType.toStringRepr (dt : DType) : String :=
  (if dt.isComplex then "complex_" else "") ++ dt.base.toStringRepr ++
    (if dt.dimension = 1 then "" else "[" ++ toString dt.dimension ++ "]")

/-- The six constant-arithmetic operations, tagged; each tag is paired in
the source with its operation string and its kernel getter. -/
inductive ConstOp where
  | xPlusK
  | xSubK
  | kSubX
  | xMultK
  | xDivK
  | kDivX
deriving DecidableEq, Repr

/-- The operation string (`opKey`) the factory matches for each tag. -/
def ConstOp.opName : ConstOp → String
  | .xPlusK => "X+K"
  | .xSubK => "X-K"
  | .kSubX => "K-X"
  | .xMultK => "X*K"
  | .xDivK => "X/K"
  | .kDivX => "K/X"

/-- The kernel getter the factory passes to the constructor for each tag
(`getXPlusKFcn<type>()`, …). -/
def ConstOp.fcn {T : Type} [Add T] [Sub T] [Mul T] [Div T] :
    ConstOp → ((Nat → T) → T → Nat → List T)
  | .xPlusK => xPlusKFcn
  | .xSubK => xSubKFcn
  | .kSubX => kSubXFcn
  | .xMultK => xMultKFcn
  | .xDivK => xDivKFcn
  | .kDivX => kDivXFcn

/-- The operation tags in the order the `ifTypeDeclareFactory_` macro tests
them. -/
def constOpList : List ConstOp :=
  [.xPlusK, .xSubK, .kSubX, .xMultK, .xDivK, .kDivX]

/-- The base element types in the order `makeConstArithmetic` tests them. -/
def constArithBases : List BaseKind :=
  [.int8, .int16, .int32, .int64, .uint8, .uint16, .uint32, .uint64,
   .float32, .float64]

/-- One advertised entry of the const-arithmetic dispatch chain: a scalar
kind, complex or not, and an operation tag. -/
structure ConstEntry where
  base : BaseKind
  cplx : Bool
  op : ConstOp
deriving DecidableEq, Repr

/-- The full ordered dispatch chain of `makeConstArithmetic`: for each base
type, the six scalar entries then the six complex entries. -/
def constArithTable : List ConstEntry :=
  constArithBases.flatMap (fun b =>
    constOpList.map (fun op => ConstEntry.mk b false op) ++
      constOpList.map (fun op => ConstEntry.mk b true op))

/-- One test of the dispatch chain:
`Pothos::DType::fromDType(dtype, 1) == Pothos::DType(typeid(type))` — the
scalar kind and complexness match, dimension ignored — together with
`opKey == operation`. -/
def entryMatches (dt : DType) (operation : String) (e : ConstEntry) : Bool :=
  (dt.base == e.base) && (dt.isComplex == e.cplx) && (e.op.opName == operation)

/-- The errors the factories raise: an unsupported type/operation
combination (the `Pothos::InvalidArgumentException` carrying the rendered
descriptor and, for const-arithmetic, the operation string), or a failed
conversion of the supplied constant. -/
inductive PothosError where
  | unsupportedType (typeRepr : String) (operation : Option String)
  | invalidConstant
deriving DecidableEq, Repr

/-- What a successful `makeConstArithmetic` call constructs: the matched
scalar kind and complexness, the operation tag (which names the kernel
passed to the constructor), the constant converted to the element type, and
the dimension passed through. -/
structure ConstArithBlockDesc (V : Type) where
  base : BaseKind
  isComplex : Bool
  op : ConstOp
  constant : V
  dimension : Nat
deriving DecidableEq, Repr

/-- `makeConstArithmetic(dtype, operation, constant)`: walk the dispatch
chain for the first entry whose type and operation match; on a match,
convert the constant to the concrete element type (`constant.convert<type>()`
— the conversion itself lives in the external Pothos framework and is a
parameter here) and only then construct the block; a failed conversion
raises before any block is constructed.  If no entry matches, raise the
unsupported-arguments error carrying the rendered type and the operation. -/
def makeConstArithmetic {Obj V : Type} (dtype : DType) (operation : String)
    (constant : Obj) (convert : ConstEntry → Obj → Option V) :
    Except PothosError (ConstArithBlockDesc V) :=
  match constArithTable.find? (entryMatches dtype operation) with
  | some e =>
      match convert e constant with
      | some v => Except.ok ⟨e.base, e.cplx, e.op, v, dtype.dimension⟩
      | none => Except.error PothosError.invalidConstant
  | none =>
      Except.error (PothosError.unsupportedType dtype.toStringRepr (some operation))

/-- The input base types in the order `angleFactory` tests them; each is
matched as the complex type over that base. -/
def angleBases : List BaseKind :=
  [.float64, .float32, .int64, .int32, .int16, .int8]

/-- One test of the angle dispatch chain: the input must be the complex
type over the entry's base kind, dimension ignored. -/
def angleMatches (dt : DType) (b : BaseKind) : Bool :=
  (dt.base == b) && (dt.isComplex == true)

/-- What a successful `angleFactory` call constructs: the matched input
base kind (the output type is the scalar over it) and the dimension. -/
structure AngleBlockDesc where
  inBase : BaseKind
  dimension : Nat
deriving DecidableEq, Repr

/-- `angleFactory(dtype)`: walk the chain of supported complex input types;
on a match construct the block, otherwise raise the unsupported-type error
carrying the rendered descriptor. -/
def angleFactory (dtype : DType) : Except PothosError AngleBlockDesc :=
  match angleBases.find? (angleMatches dtype) with
  | some b => Except.ok ⟨b, dtype.dimension⟩
  | none => Except.error (PothosError.unsupportedType dtype.toStringRepr none)

/-- A (type, operation) request is in the advertised const-arithmetic set
iff some chain entry matches it. -/
def constArithSupported (dt : DType) (operation : String) : Bool :=
  constArithTable.any (entryMatches dt operation)

/-- A type request is in the advertised angle set iff some chain entry
matches it. -/
def angleSupported (dt : DType) : Bool :=
  angleBases.any (angleMatches dt)

/-! ### Theorems settling the claims -/

/-- C1: the "X+K" kernel writes `out[i] = in[i] + k` and the "K-X" kernel
writes `out[i] = k - in[i]` at every lane `i < num`, for every element type;
concretely, over the exact binary32 values (modelled in `ℚ`) "X+K" with
`k = 3` maps `[1, 2, -3]` to `[4, 5, 0]`, and over `int32` (modelled in `ℤ`)
"K-X" with `k = 10` maps `[1, 2, 3]` to `[9, 8, 7]`. -/
theorem constArith_xPlusK_kSubX_correct :
    (∀ (T : Type) (_ : Add T) (inBuf : Nat → T) (k : T) (num i : Nat),
        i < num → (xPlusKFcn inBuf k num)[i]? = some (inBuf i + k)) ∧
    (∀ (T : Type) (_ : Sub T) (inBuf : Nat → T) (k : T) (num i : Nat),
        i < num → (kSubXFcn inBuf k num)[i]? = some (k - inBuf i)) ∧
    xPlusKFcn (fun i => [(1 : ℚ), 2, -3].getD i 0) 3 3 = [4, 5, 0] ∧
    kSubXFcn (fun i => [(1 : ℤ), 2, 3].getD i 0) 10 3 = [9, 8, 7] := by
  refine ⟨?_, ?_, ?_, ?_⟩
  · intro T _ inBuf k num i hi
    simp [xPlusKFcn, List.getElem?_map, List.getElem?_range, hi]
  · intro T _ inBuf k num i hi
    simp [kSubXFcn, List.getElem?_map, List.getElem?_range, hi]
  · simp [xPlusKFcn, List.range_succ]
    norm_num
  · decide

/-- Witness for `constArith_xPlusK_kSubX_correct`: its two quantified
clauses applied at a concrete lane of concrete buffers. -/
theorem constArith_xPlusK_kSubX_correct_witness :
    (xPlusKFcn (fun i => [(1 : ℚ), 2, -3].getD i 0) 3 3)[0]? =
      some ((fun i => [(1 : ℚ), 2, -3].getD i 0) 0 + 3) ∧
    (kSubXFcn (fun i => [(1 : ℤ), 2, 3].getD i 0) 10 3)[2]? =
      some (10 - (fun i => [(1 : ℤ), 2, 3].getD i 0) 2) :=
  ⟨constArith_xPlusK_kSubX_correct.1 ℚ inferInstance _ 3 3 0 (by decide),
   constArith_xPlusK_kSubX_correct.2.1 ℤ inferInstance _ 10 3 2 (by decide)⟩

/-- C2 (spec-modelled: `getAngle` comes from `FxptHelpers.hpp`, absent from
`src/`): the angle kernel writes `out[i] = atan2(Im(in[i]), Re(in[i]))` =
`Complex.arg (in[i])` at every lane; floating outputs lie in `(-π, π]`;
the fixed-point output is the angle scaled by `2^15/π` — it represents the
angle to within `π/2^16` and stays within the signed 16-bit full scale;
concretely, input `(1, 0)` yields `0` and input `(0, 1)` yields `π/2`. -/
theorem angle_kernel_correct :
    (∀ (inBuf : Nat → ℂ) (num i : Nat), i < num →
      (getAngleFcn getAngleFloat inBuf num)[i]? = some (Complex.arg (inBuf i))) ∧
    (∀ z : ℂ, getAngleFloat z ∈ Set.Ioc (-Real.pi) Real.pi) ∧
    (∀ z : ℂ,
      |(getAngleFixed z : ℝ) * Real.pi / 2 ^ 15 - getAngleFloat z| ≤
        Real.pi / 2 ^ 16 ∧
      |getAngleFixed z| ≤ 2 ^ 15) ∧
    getAngleFcn getAngleFloat (fun _ => (1 : ℂ)) 1 = [0] ∧
    getAngleFcn getAngleFloat (fun _ => Complex.I) 1 = [Real.pi / 2] := by
  refine ⟨?_, ?_, ?_, ?_, ?_⟩
  · intro inBuf num i hi
    simp [getAngleFcn, getAngleFloat, List.getElem?_map, List.getElem?_range, hi]
  · intro z
    exact Complex.arg_mem_Ioc z
  · intro z
    have hπ : (0 : ℝ) < Real.pi := Real.pi_pos
    set t : ℝ := Complex.arg z * (2 ^ 15 / Real.pi) with ht
    have hfix : getAngleFixed z = round t := rfl
    have harg : Complex.arg z = t * Real.pi / 2 ^ 15 := by
      rw [ht]; field_simp
    have h1 : |t - (round t : ℝ)| ≤ 1 / 2 := abs_sub_round t
    constructor
    · have h2 : (round t : ℝ) * Real.pi / 2 ^ 15 - Complex.arg z
          = -((t - (round t : ℝ)) * (Real.pi / 2 ^ 15)) := by
        rw [harg]; ring
      rw [hfix, getAngleFloat, h2, abs_neg, abs_mul,
        abs_of_pos (by positivity : (0 : ℝ) < Real.pi / 2 ^ 15)]
      calc |t - (round t : ℝ)| * (Real.pi / 2 ^ 15)
          ≤ 1 / 2 * (Real.pi / 2 ^ 15) :=
            mul_le_mul_of_nonneg_right h1 (by positivity)
        _ = Real.pi / 2 ^ 16 := by ring
    · have htb : |t| ≤ 2 ^ 15 := by
        rw [ht, abs_mul, abs_of_pos (by positivity : (0 : ℝ) < 2 ^ 15 / Real.pi)]
        calc |Complex.arg z| * (2 ^ 15 / Real.pi)
            ≤ Real.pi * (2 ^ 15 / Real.pi) :=
              mul_le_mul_of_nonneg_right (Complex.abs_arg_le_pi z) (by positivity)
          _ = 2 ^ 15 := by field_simp
      have h2 : |(round t : ℝ)| ≤ 2 ^ 15 + 1 / 2 := by
        calc |(round t : ℝ)| = |t - (t - (round t : ℝ))| := by ring_nf
          _ ≤ |t| + |t - (round t : ℝ)| := abs_sub t (t - (round t : ℝ))
          _ ≤ 2 ^ 15 + 1 / 2 := add_le_add htb h1
      have h3 : ((|round t| : ℤ) : ℝ) < ((32769 : ℤ) : ℝ) := by
        push_cast
        calc |(round t : ℝ)| ≤ 2 ^ 15 + 1 / 2 := h2
          _ < 32769 := by norm_num
      have h4 : (|round t| : ℤ) < 32769 := by exact_mod_cast h3
      rw [hfix]
      omega
  · simp [getAngleFcn, getAngleFloat, List.range_succ, Complex.arg_one]
  · simp [getAngleFcn, getAngleFloat, List.range_succ, Complex.arg_I]

/-- Witness for `angle_kernel_correct`: its lane clause applied at the
concrete one-element buffer `[(0, 1)]`. -/
theorem angle_kernel_correct_witness :
    (getAngleFcn getAngleFloat (fun _ => Complex.I) 1)[0]? =
      some (Complex.arg ((fun _ => Complex.I) 0)) :=
  angle_kernel_correct.1 (fun _ => Complex.I) 1 0 (by decide)

/-- C3: a `work()` call with `minElements = n > 0` on a unit of dimension `D`
passes `n*D` elements of `T` to the kernel — `n*D*(2 if complex else 1)`
scalar lanes — then consumes exactly `n` on the input port and produces
exactly `n` on the output port, in that order, the produce coming only after
the kernel call; the same holds for both `ConstArithmetic::work` and
`Angle::work`. -/
theorem work_consume_produce_trace :
    ∀ (n : Nat), 0 < n →
      (∀ (T : Type) (b : ConstArithmetic T) (dimension : Nat) (inBuf : Nat → T),
        (b.work n dimension inBuf).2.2 =
          [Effect.kernelCall (n * dimension),
           Effect.consume n, Effect.produce n] ∧
        (b.work n dimension inBuf).2.1 = b._func inBuf b._constant (n * dimension)) ∧
      (∀ (InT OutT : Type) (b : Angle InT OutT) (dimension : Nat) (inBuf : Nat → InT),
        (b.work n dimension inBuf).2.2 =
          [Effect.kernelCall (n * dimension),
           Effect.consume n, Effect.produce n] ∧
        (b.work n dimension inBuf).2.1 = b._fcn inBuf (n * dimension)) ∧
      (∀ (dimension : Nat) (isComplex : Bool),
        scalarLanes (n * dimension) isComplex =
          n * dimension * (if isComplex then 2 else 1)) := by
  intro n hn
  refine ⟨?_, ?_, ?_⟩
  · intro T b dimension inBuf
    rw [ConstArithmetic.work, if_neg (Nat.pos_iff_ne_zero.mp hn)]
    exact ⟨rfl, rfl⟩
  · intro InT OutT b dimension inBuf
    rw [Angle.work, if_neg (Nat.pos_iff_ne_zero.mp hn)]
    exact ⟨rfl, rfl⟩
  · intro dimension isComplex
    rfl

/-- Witness for `work_consume_produce_trace` at `n = 3`, dimension 2, a
concrete `K-X` unit over `ℤ` and a concrete complex-modelled `Angle` unit. -/
theorem work_consume_produce_trace_witness :
    ((ConstArithmetic.mk (10 : ℤ) kSubXFcn).work 3 2 (fun i => (i : ℤ))).2.2 =
      [Effect.kernelCall 6, Effect.consume 3, Effect.produce 3] ∧
    ((Angle.mk (fun inBuf num => (List.range num).map (fun i => (inBuf i).1)) :
        Angle (ℤ × ℤ) ℤ).work 3 2 (fun i => ((i : ℤ), 0))).2.2 =
      [Effect.kernelCall 6, Effect.consume 3, Effect.produce 3] ∧
    scalarLanes 6 true = 12 :=
  ⟨((work_consume_produce_trace 3 (by decide)).1 ℤ _ 2 _).1,
   ((work_consume_produce_trace 3 (by decide)).2.1 (ℤ × ℤ) ℤ _ 2 _).1,
   by have h := (work_consume_produce_trace 3 (by decide)).2.2 2 true; simpa using h⟩

/-- C4: a `work()` call with `minElements = 0` returns immediately: no
kernel call, no `consume`/`produce`, no output written, state unchanged, for
both block classes. -/
theorem work_zero_elements_noop :
    ∀ (T InT OutT : Type) (b : ConstArithmetic T) (a : Angle InT OutT)
      (dimension : Nat) (inBuf : Nat → T) (inBufA : Nat → InT),
      b.work 0 dimension inBuf = (b, [], []) ∧
      a.work 0 dimension inBufA = (a, [], []) := by
  intro T InT OutT b a dimension inBuf inBufA
  exact ⟨rfl, rfl⟩

/-- Witness for `work_zero_elements_noop` at concrete blocks over `ℤ`. -/
theorem work_zero_elements_noop_witness :
    (ConstArithmetic.mk (1 : ℤ) xPlusKFcn).work 0 4 (fun _ => 0) =
      (ConstArithmetic.mk (1 : ℤ) xPlusKFcn, [], []) ∧
    (Angle.mk (fun _ _ => ([] : List ℤ)) : Angle (ℤ × ℤ) ℤ).work 0 4
        (fun _ => ((0 : ℤ), (0 : ℤ))) =
      (Angle.mk (fun _ _ => ([] : List ℤ)), [], []) :=
  work_zero_elements_noop ℤ (ℤ × ℤ) ℤ (ConstArithmetic.mk 1 xPlusKFcn)
    (Angle.mk (fun _ _ => [])) 4 (fun _ => 0) (fun _ => (0, 0))

/-- C5: `setConstant(v)` overwrites the stored constant with `v` and emits
the "constantChanged" signal exactly once, carrying `v`, whatever the prior
constant was (including `v` itself); any later `work()` with `n > 0` elements
invokes the kernel with `v`; and the `constant()` getter is a pure read
returning `v`. -/
theorem setConstant_updates_and_signals :
    ∀ (T : Type) (b : ConstArithmetic T) (v : T),
      (b.setConstant v).1._constant = v ∧
      (b.setConstant v).2 = [⟨"constantChanged", v⟩] ∧
      ((b.setConstant v).1).constant = v ∧
      (∀ (n dimension : Nat) (inBuf : Nat → T), 0 < n →
        ((b.setConstant v).1.work n dimension inBuf).2.1 =
          b._func inBuf v (n * dimension)) := by
  intro T b v
  refine ⟨rfl, rfl, rfl, ?_⟩
  intro n dimension inBuf hn
  rw [ConstArithmetic.work, if_neg (Nat.pos_iff_ne_zero.mp hn)]
  rfl

/-- Witness for `setConstant_updates_and_signals`: a unit whose constant is
already 5 set to 5 again still emits exactly one signal, and a subsequent
`work` call over one element uses the new constant. -/
theorem setConstant_updates_and_signals_witness :
    ((ConstArithmetic.mk (5 : ℤ) xPlusKFcn).setConstant 5).2 =
      [⟨"constantChanged", (5 : ℤ)⟩] ∧
    (((ConstArithmetic.mk (5 : ℤ) xPlusKFcn).setConstant 5).1.work 1 1
        (fun _ => (2 : ℤ))).2.1 = xPlusKFcn (fun _ => (2 : ℤ)) 5 1 :=
  ⟨(setConstant_updates_and_signals ℤ _ 5).2.1,
   (setConstant_updates_and_signals ℤ _ 5).2.2.2 1 1 _ (by decide)⟩

/-- C6: a request outside the advertised set fails with the
unsupported-arguments error carrying the rendered type and the operation
string (no block value exists on the error path), for both factories; every
advertised entry, reached with a convertible constant, constructs a block of
the matched kind whose operation tag names the requested operation — and
every operation tag's kernel is a total function processing all `num`
lanes. -/
theorem factory_dispatch_correct :
    (∀ (Obj V : Type) (dt : DType) (operation : String) (c : Obj)
        (convert : ConstEntry → Obj → Option V),
      constArithSupported dt operation = false →
      makeConstArithmetic dt operation c convert =
        Except.error (PothosError.unsupportedType dt.toStringRepr (some operation))) ∧
    (∀ (Obj V : Type) (dt : DType) (operation : String) (c : Obj)
        (convert : ConstEntry → Obj → Option V) (e : ConstEntry) (v : V),
      constArithTable.find? (entryMatches dt operation) = some e →
      convert e c = some v →
      makeConstArithmetic dt operation c convert =
        Except.ok ⟨dt.base, dt.isComplex, e.op, v, dt.dimension⟩ ∧
      e.op.opName = operation ∧ e.base = dt.base ∧ e.cplx = dt.isComplex) ∧
    (∀ dt : DType, angleSupported dt = false →
      angleFactory dt =
        Except.error (PothosError.unsupportedType dt.toStringRepr none)) ∧
    (∀ (dt : DType) (b : BaseKind), angleBases.find? (angleMatches dt) = some b →
      angleFactory dt = Except.ok ⟨dt.base, dt.dimension⟩ ∧ b = dt.base) ∧
    (∀ (op : ConstOp) (inBuf : Nat → CInt) (k : CInt) (num : Nat),
      (ConstOp.fcn op inBuf k num).length = num) := by
  refine ⟨?_, ?_, ?_, ?_, ?_⟩
  · intro Obj V dt operation c convert hsup
    have hnone : constArithTable.find? (entryMatches dt operation) = none := by
      cases hfind : constArithTable.find? (entryMatches dt operation) with
      | none => rfl
      | some e =>
        have hp := List.find?_some hfind
        have hmem := List.mem_of_find?_eq_some hfind
        have hany : constArithTable.any (entryMatches dt operation) = true :=
          List.any_eq_true.mpr ⟨e, hmem, hp⟩
        rw [constArithSupported, hany] at hsup
        exact absurd hsup (by decide)
    rw [makeConstArithmetic, hnone]
  · intro Obj V dt operation c convert e v hfind hconv
    have hp := List.find?_some hfind
    simp only [entryMatches, Bool.and_eq_true, beq_iff_eq] at hp
    obtain ⟨⟨hbase, hcplx⟩, hop⟩ := hp
    refine ⟨?_, hop, hbase.symm, hcplx.symm⟩
    simp [makeConstArithmetic, hfind, hconv, hbase, hcplx]
  · intro dt hsup
    have hnone : angleBases.find? (angleMatches dt) = none := by
      cases hfind : angleBases.find? (angleMatches dt) with
      | none => rfl
      | some b =>
        have hp := List.find?_some hfind
        have hmem := List.mem_of_find?_eq_some hfind
        have hany : angleBases.any (angleMatches dt) = true :=
          List.any_eq_true.mpr ⟨b, hmem, hp⟩
        rw [angleSupported, hany] at hsup
        exact absurd hsup (by decide)
    rw [angleFactory, hnone]
  · intro dt b hfind
    have hp := List.find?_some hfind
    simp only [angleMatches, Bool.and_eq_true, beq_iff_eq] at hp
    refine ⟨?_, hp.1.symm⟩
    rw [angleFactory, hfind, hp.1]
  · intro op inBuf k num
    cases op <;>
      simp [ConstOp.fcn, xPlusKFcn, xSubKFcn, kSubXFcn, xMultKFcn, xDivKFcn,
        kDivXFcn]

/-- Witness for `factory_dispatch_correct`: a boolean-like custom type with
"K/X" is rejected by `makeConstArithmetic` and a scalar float by
`angleFactory`; complex-int32 "X+K" and complex-float32 angle requests
construct blocks; the "K/X" kernel at `ℤ` processes all three lanes. -/
theorem factory_dispatch_correct_witness :
    @makeConstArithmetic ℚ ℚ ⟨BaseKind.custom ("bool"), false, 1⟩
        ("K/X") 0 (fun _ q => some q) =
      Except.error (PothosError.unsupportedType
        (DType.toStringRepr ⟨BaseKind.custom ("bool"), false, 1⟩) (some ("K/X"))) ∧
    (@makeConstArithmetic ℚ ℚ ⟨BaseKind.int32, true, 2⟩
        ("X+K") 5 (fun _ q => some q) =
      Except.ok ⟨BaseKind.int32, true, ConstOp.xPlusK, 5, 2⟩ ∧
      (ConstOp.xPlusK).opName = "X+K" ∧ BaseKind.int32 = BaseKind.int32 ∧
      true = true) ∧
    angleFactory ⟨BaseKind.float32, false, 1⟩ =
      Except.error (PothosError.unsupportedType
        (DType.toStringRepr ⟨BaseKind.float32, false, 1⟩) none) ∧
    (angleFactory ⟨BaseKind.float32, true, 2⟩ =
      Except.ok ⟨BaseKind.float32, 2⟩ ∧ BaseKind.float32 = BaseKind.float32) ∧
    (ConstOp.fcn ConstOp.kDivX (fun _ => (1 : CInt)) 12 3).length = 3 :=
  ⟨factory_dispatch_correct.1 ℚ ℚ _ _ 0 _ (by decide),
   factory_dispatch_correct.2.1 ℚ ℚ _ _ 5 _ ⟨BaseKind.int32, true, ConstOp.xPlusK⟩ 5
     (by decide) rfl,
   factory_dispatch_correct.2.2.1 _ (by decide),
   factory_dispatch_correct.2.2.2.1 _ BaseKind.float32 (by decide),
   factory_dispatch_correct.2.2.2.2 ConstOp.kDivX (fun _ => (1 : CInt)) 12 3⟩

/-- C7: when the dispatch chain matches, the supplied constant is converted
to the concrete element type before any block is constructed: a failed
conversion makes the factory raise `invalidConstant` (so no block value
exists), and a successful conversion's value is the one stored in the
constructed block. -/
theorem constant_conversion_gate :
    ∀ (Obj V : Type) (dt : DType) (operation : String) (c : Obj)
      (convert : ConstEntry → Obj → Option V) (e : ConstEntry),
      constArithTable.find? (entryMatches dt operation) = some e →
      (convert e c = none →
        makeConstArithmetic dt operation c convert =
          Except.error PothosError.invalidConstant) ∧
      (∀ v, convert e c = some v →
        makeConstArithmetic dt operation c convert =
          Except.ok ⟨e.base, e.cplx, e.op, v, dt.dimension⟩) := by
  intro Obj V dt operation c convert e hfind
  constructor
  · intro hconv
    simp [makeConstArithmetic, hfind, hconv]
  · intro v hconv
    simp [makeConstArithmetic, hfind, hconv]

/-- Witness for `constant_conversion_gate`: at scalar int32 "X/K", an
always-failing conversion raises `invalidConstant`, and a successful
conversion stores the converted value 3 in the block. -/
theorem constant_conversion_gate_witness :
    @makeConstArithmetic ℚ ℚ ⟨BaseKind.int32, false, 1⟩
        ("X/K") 3 (fun _ _ => none) =
      Except.error PothosError.invalidConstant ∧
    @makeConstArithmetic ℚ ℚ ⟨BaseKind.int32, false, 1⟩
        ("X/K") 3 (fun _ q => some q) =
      Except.ok ⟨BaseKind.int32, false, ConstOp.xDivK, 3, 1⟩ :=
  ⟨(constant_conversion_gate ℚ ℚ _ _ 3 (fun _ _ => none)
      ⟨BaseKind.int32, false, ConstOp.xDivK⟩ (by decide)).1 rfl,
   (constant_conversion_gate ℚ ℚ _ _ 3 (fun _ q => some q)
      ⟨BaseKind.int32, false, ConstOp.xDivK⟩ (by decide)).2 3 rfl⟩

/-- C8: the integer "X/K" and "K/X" kernels contain no divide-by-zero
guard; under the documented precondition — nonzero constant for "X/K",
nonzero input lanes for "K/X" — every lane is the plain C truncated
division and the kernel completes over all `num` lanes. -/
theorem intDiv_kernels_precondition :
    (∀ (inBuf : Nat → CInt) (k : CInt) (num : Nat), k ≠ 0 →
      (xDivKFcn inBuf k num).length = num ∧
      ∀ i, i < num →
        (xDivKFcn inBuf k num)[i]? = some (Int.tdiv (inBuf i) k)) ∧
    (∀ (inBuf : Nat → CInt) (k : CInt) (num : Nat),
      (∀ i, i < num → inBuf i ≠ 0) →
      (kDivXFcn inBuf k num).length = num ∧
      ∀ i, i < num →
        (kDivXFcn inBuf k num)[i]? = some (Int.tdiv k (inBuf i))) := by
  constructor
  · intro inBuf k num _
    refine ⟨by simp [xDivKFcn], ?_⟩
    intro i hi
    simp [xDivKFcn, List.getElem?_map, List.getElem?_range, hi]
    rfl
  · intro inBuf k num _
    refine ⟨by simp [kDivXFcn], ?_⟩
    intro i hi
    simp [kDivXFcn, List.getElem?_map, List.getElem?_range, hi]
    rfl

/-- Witness for `intDiv_kernels_precondition`: concrete nonzero divisors,
including a negative lane showing truncation toward zero. -/
theorem intDiv_kernels_precondition_witness :
    ((xDivKFcn (fun i => [(-7 : CInt), 8].getD i 1) 2 2).length = 2 ∧
      ∀ i, i < 2 → (xDivKFcn (fun i => [(-7 : CInt), 8].getD i 1) 2 2)[i]? =
        some (Int.tdiv ([(-7 : CInt), 8].getD i 1) 2)) ∧
    ((kDivXFcn (fun i => [(3 : CInt), -2].getD i 1) 12 2).length = 2 ∧
      ∀ i, i < 2 → (kDivXFcn (fun i => [(3 : CInt), -2].getD i 1) 12 2)[i]? =
        some (Int.tdiv 12 ([(3 : CInt), -2].getD i 1))) :=
  ⟨intDiv_kernels_precondition.1 _ 2 2 (by decide),
   intDiv_kernels_precondition.2 _ 12 2 (by decide)⟩

/-- C9: the `ConstArithmetic<T>` constructor itself calls `setConstant`, so
construction emits the "constantChanged" signal exactly once, carrying the
initial constant, and the constructed state holds that constant and the
supplied kernel. -/
theorem construct_emits_constantChanged :
    ∀ (T : Type) (_ : Zero T) (func : (Nat → T) → T → Nat → List T) (c : T),
      (ConstArithmetic.construct func c).2 = [⟨"constantChanged", c⟩] ∧
      (ConstArithmetic.construct func c).1._constant = c ∧
      (ConstArithmetic.construct func c).1._func = func := by
  intro T _ func c
  exact ⟨rfl, rfl, rfl⟩

/-- Witness for `construct_emits_constantChanged` at a concrete `X+K` unit
over `ℤ` with initial constant 7. -/
theorem construct_emits_constantChanged_witness :
    (ConstArithmetic.construct (T := ℤ) xPlusKFcn 7).2 =
      [⟨"constantChanged", (7 : ℤ)⟩] ∧
    (ConstArithmetic.construct (T := ℤ) xPlusKFcn 7).1._constant = 7 ∧
    (ConstArithmetic.construct (T := ℤ) xPlusKFcn 7).1._func = xPlusKFcn :=
  construct_emits_constantChanged ℤ inferInstance xPlusKFcn 7

/-- C10: `work()` never changes the stored constant or the cached kernel
pointer — for every state and every element count the returned state equals
the input state — and `setConstant` changes only the constant, never the
kernel. -/
theorem work_preserves_constant_and_func :
    ∀ (T : Type) (b : ConstArithmetic T) (elems dimension : Nat)
      (inBuf : Nat → T) (v : T),
      (b.work elems dimension inBuf).1 = b ∧
      (b.work elems dimension inBuf).1._constant = b._constant ∧
      (b.work elems dimension inBuf).1._func = b._func ∧
      (b.setConstant v).1._func = b._func := by
  intro T b elems dimension inBuf v
  have hb : (b.work elems dimension inBuf).1 = b := by
    rw [ConstArithmetic.work]
    split
    · rfl
    · rfl
  exact ⟨hb, by rw [hb], by rw [hb], rfl⟩

/-- Witness for `work_preserves_constant_and_func` at a concrete `K-X` unit
over `ℤ`. -/
theorem work_preserves_constant_and_func_witness :
    ((ConstArithmetic.mk (3 : ℤ) kSubXFcn).work 2 1 (fun _ => 0)).1 =
      ConstArithmetic.mk (3 : ℤ) kSubXFcn ∧
    ((ConstArithmetic.mk (3 : ℤ) kSubXFcn).work 2 1 (fun _ => 0)).1._constant = 3 ∧
    ((ConstArithmetic.mk (3 : ℤ) kSubXFcn).work 2 1 (fun _ => 0)).1._func =
      kSubXFcn ∧
    ((ConstArithmetic.mk (3 : ℤ) kSubXFcn).setConstant 9).1._func = kSubXFcn :=
  work_preserves_constant_and_func ℤ (ConstArithmetic.mk 3 kSubXFcn) 2 1
    (fun _ => 0) 9

end PothosComms
